import Mathlib

/-
  Shallow embedding of src/src/components/LungsModel3D.tsx.

  The component derives all visual state from a single integer pledge count:
  a fill ratio, a rounded percentage, a five-way status-message selection,
  two particle systems (randomized 3D markers, deterministic overlay markers),
  a per-surface material transform, and a per-frame breathing animation.
  Numeric computations are embedded over the rationals (the reals for the
  trigonometric animator); JS rounding and array-length semantics are made
  explicit (`jsRound`, `jsArrayLength`).
-/

namespace LungsModel3D

/-- JS `Math.round`: rounds half toward positive infinity, i.e. `⌊x + 1/2⌋`. -/
def jsRound (x : ℚ) : ℤ := ⌊x + 1/2⌋

/-- JS `Array.from ({length: n})` semantics: the length is clamped below at 0
    (ToLength maps negative values to 0). -/
def jsArrayLength (n : ℤ) : ℕ := n.toNat

/-- Source line 74: `const fillLevel = Math.min(pledgeCount / 200, 1)`. -/
def fillLevel (pledgeCount : ℤ) : ℚ := min ((pledgeCount : ℚ) / 200) 1

/-- Source line 75: `const fillPercentage = Math.round(fillLevel * 100)`. -/
def fillPercentage (pledgeCount : ℤ) : ℤ := jsRound (fillLevel pledgeCount * 100)

/-- Modelled from the spec: `ratio = clamp(count / 200, 0, 1)` — the spec-side
    clamp, to be compared with the source's `fillLevel`. -/
def clampSpec (x : ℚ) : ℚ := max 0 (min x 1)

/-- Status message rendered when `fillLevel < 0.25` (source lines 118-122). -/
def msgStarting : String := "🌱 Just getting started! Keep growing!"

/-- Status message rendered when `0.25 ≤ fillLevel < 0.5` (source lines 123-127). -/
def msgGrowing : String := "💚 Great progress! Lungs are getting healthier!"

/-- Status message rendered when `0.5 ≤ fillLevel < 0.75` (source lines 128-132). -/
def msgHalfway : String := "🌟 Halfway there! Amazing commitment!"

/-- Status message rendered when `0.75 ≤ fillLevel < 1` (source lines 133-137). -/
def msgAlmostFull : String := "🚀 Almost at full capacity! Incredible!"

/-- Status message rendered when `fillLevel ≥ 1` (source lines 138-142). -/
def msgComplete : String := "🎉 Maximum health achieved! Outstanding!"

/-- Source lines 117-143: the list of status messages actually rendered.  The
    source guards each message by its own independent condition on
    `fillLevel`, so a priori zero or several could render; the embedding keeps
    the five conditions exactly as written. -/
def statusMessages (f : ℚ) : List String :=
  (if f < 0.25 then [msgStarting] else []) ++
  (if 0.25 ≤ f ∧ f < 0.5 then [msgGrowing] else []) ++
  (if 0.5 ≤ f ∧ f < 0.75 then [msgHalfway] else []) ++
  (if 0.75 ≤ f ∧ f < 1 then [msgAlmostFull] else []) ++
  (if 1 ≤ f then [msgComplete] else [])

/-- Material state carried by each surface (mesh) of the loaded GLB asset:
    the fields the component's effect writes (source lines 28-41).  The hue,
    saturation and lightness are the three HSL components of the written
    color. -/
structure Material where
  hue : ℚ
  saturation : ℚ
  lightness : ℚ
  opacity : ℚ
  transparent : Bool
deriving DecidableEq, Repr

/-- Source lines 31-37: the transform applied to the material of every mesh
    the scene traversal visits:
    `hsl(120 + fillLevel*60, 70%, (40 + fillLevel*20)%)`,
    `opacity = 0.8 + fillLevel * 0.2`, `transparent = true`. -/
def updateMaterial (f : ℚ) (_m : Material) : Material :=
  { hue := 120 + f * 60
    saturation := 70
    lightness := 40 + f * 20
    opacity := 0.8 + f * 0.2
    transparent := true }

/-- Source lines 28-41: `scene.traverse` applies `updateMaterial` to every
    surface of the asset, modelled as a map over the scene's list of
    materials. -/
def applyMaterials (f : ℚ) (scene : List Material) : List Material :=
  scene.map (updateMaterial f)

/-- Source line 49: number of 3D fill-indicator particles,
    `Array.from ({length: Math.floor(fillLevel * 50)})`. -/
def numMarkers3D (f : ℚ) : ℕ := jsArrayLength ⌊f * 50⌋

/-- Source lines 52-56: position of one 3D marker from three draws of
    `Math.random()`:
    `((rx - 0.5) * 2, (ry - 0.5) * 1.5, (rz - 0.5) * 0.5)`. -/
def markerPos3D (rx ry rz : ℚ) : ℚ × ℚ × ℚ :=
  ((rx - 0.5) * 2, (ry - 0.5) * 1.5, (rz - 0.5) * 0.5)

/-- Source lines 49-65: the list of 3D marker positions; `r` is the stream of
    `Math.random()` outputs (marker `i` consumes draws `3i`, `3i+1`,
    `3i+2`). -/
def markers3D (f : ℚ) (r : ℕ → ℚ) : List (ℚ × ℚ × ℚ) :=
  (List.range (numMarkers3D f)).map
    (fun i => markerPos3D (r (3 * i)) (r (3 * i + 1)) (r (3 * i + 2)))

/-- Source line 147: number of overlay health particles,
    `Array.from ({length: Math.floor(fillLevel * 10)})`. -/
def numOverlayMarkers (f : ℚ) : ℕ := jsArrayLength ⌊f * 10⌋

/-- Source lines 146-159: the overlay particles' (left%, top%) positions,
    `left = 10 + i*8`, `top = 15 + i*6` — deterministic in the index `i`. -/
def overlayMarkers (f : ℚ) : List (ℚ × ℚ) :=
  (List.range (numOverlayMarkers f)).map
    (fun (i : ℕ) => (10 + (i : ℚ) * 8, 15 + (i : ℚ) * 6))

/-- Transform state of the asset group mutated by the per-frame callback:
    a uniform scale and a rotation about Y. -/
structure Transform where
  scale : ℝ
  rotY : ℝ

/-- Source lines 18-25: the `useFrame` callback.  Given the elapsed time `t`
    it overwrites the group transform with
    `scale = 1 + sin(t * 0.5) * 0.1` and `rotationY = sin(t * 0.2) * 0.1`;
    the previous transform `_tr` is not read. -/
noncomputable def animate (t : ℝ) (_tr : Transform) : Transform :=
  { scale := 1 + Real.sin (t * 0.5) * 0.1
    rotY := Real.sin (t * 0.2) * 0.1 }

/-- A sample input material, used to evaluate the material transform at a
    concrete scene. -/
def sampleMaterial : Material :=
  { hue := 0, saturation := 0, lightness := 0, opacity := 1, transparent := false }

/-- Basic bounds: for a non-negative count the fill level lies in [0, 1]. -/
theorem fillLevel_nonneg (c : ℤ) (h : 0 ≤ c) : 0 ≤ fillLevel c :=
  le_min (div_nonneg (by exact_mod_cast h) (by norm_num)) zero_le_one

/-- The fill level never exceeds 1. -/
theorem fillLevel_le_one (c : ℤ) : fillLevel c ≤ 1 :=
  min_le_right _ _

/-- C1: for every non-negative integer pledge count, `fillLevel` equals
    `clamp(count / 200, 0, 1)`; it is `count/200` for `count < 200` and
    exactly 1 for `count ≥ 200`. -/
theorem fillLevel_matches_clamp_spec (c : ℤ) (h : 0 ≤ c) :
    fillLevel c = clampSpec ((c : ℚ) / 200) ∧
    (c < 200 → fillLevel c = (c : ℚ) / 200) ∧
    (200 ≤ c → fillLevel c = 1) := by
  refine ⟨?_, ?_, ?_⟩
  · unfold fillLevel clampSpec
    exact (max_eq_right (le_min (div_nonneg (by exact_mod_cast h) (by norm_num))
      zero_le_one)).symm
  · intro hlt
    unfold fillLevel
    apply min_eq_left
    rw [div_le_one (by norm_num)]
    exact_mod_cast hlt.le
  · intro hge
    unfold fillLevel
    apply min_eq_right
    rw [le_div_iff₀ (by norm_num)]
    have : (200 : ℚ) ≤ (c : ℚ) := by exact_mod_cast hge
    linarith

/-- Witness for C1 at count 100. -/
theorem fillLevel_matches_clamp_spec_witness :
    fillLevel 100 = clampSpec (((100 : ℤ) : ℚ) / 200) ∧
    fillLevel 100 = ((100 : ℤ) : ℚ) / 200 :=
  ⟨(fillLevel_matches_clamp_spec 100 (by norm_num)).1,
   (fillLevel_matches_clamp_spec 100 (by norm_num)).2.1 (by norm_num)⟩

/-- C3: for every non-negative count, the displayed percentage is
    `round(fillLevel * 100)` and lies in [0, 100]. -/
theorem fillPercentage_round_and_bounds (c : ℤ) (h : 0 ≤ c) :
    fillPercentage c = jsRound (fillLevel c * 100) ∧
    0 ≤ fillPercentage c ∧ fillPercentage c ≤ 100 := by
  have h0 : (0 : ℚ) ≤ fillLevel c := fillLevel_nonneg c h
  have h1 : fillLevel c ≤ 1 := fillLevel_le_one c
  refine ⟨rfl, ?_, ?_⟩
  · unfold fillPercentage jsRound
    exact Int.floor_nonneg.2 (by linarith)
  · unfold fillPercentage jsRound
    have hlt : fillLevel c * 100 + 1/2 < ((101 : ℤ) : ℚ) := by push_cast; linarith
    have := Int.floor_lt.2 hlt
    omega

/-- Witness for C3 at count 150. -/
theorem fillPercentage_round_and_bounds_witness :
    fillPercentage 150 = jsRound (fillLevel 150 * 100) ∧
    0 ≤ fillPercentage 150 ∧ fillPercentage 150 ≤ 100 :=
  fillPercentage_round_and_bounds 150 (by norm_num)

/-- C9: the fill level is monotone non-decreasing in the count, strictly
    increasing while the count is below 200, and constant at 1 from 200 on. -/
theorem fillLevel_monotone_saturating (a b : ℤ) (_h0 : 0 ≤ a) (hab : a ≤ b) :
    fillLevel a ≤ fillLevel b ∧
    (a < b → a < 200 → fillLevel a < fillLevel b) ∧
    (200 ≤ a → fillLevel a = 1 ∧ fillLevel b = 1) := by
  have hcab : (a : ℚ) ≤ (b : ℚ) := by exact_mod_cast hab
  refine ⟨min_le_min (by linarith) le_rfl, ?_, ?_⟩
  · intro hlt h200
    have hca : (a : ℚ) < 200 := by exact_mod_cast h200
    have hcb : (a : ℚ) < (b : ℚ) := by exact_mod_cast hlt
    have ha : fillLevel a = (a : ℚ) / 200 :=
      min_eq_left (by rw [div_le_one (by norm_num)]; linarith)
    rw [ha]
    exact lt_min (by linarith) ((div_lt_one (by norm_num)).2 hca)
  · intro h200
    have hca : (200 : ℚ) ≤ (a : ℚ) := by exact_mod_cast h200
    constructor
    · exact min_eq_right (by rw [le_div_iff₀ (by norm_num)]; linarith)
    · exact min_eq_right (by rw [le_div_iff₀ (by norm_num)]; linarith)

/-- Witness for C9 at counts 100 and 300. -/
theorem fillLevel_monotone_saturating_witness :
    fillLevel 100 ≤ fillLevel 300 ∧ fillLevel 100 < fillLevel 300 :=
  ⟨(fillLevel_monotone_saturating 100 300 (by norm_num) (by norm_num)).1,
   (fillLevel_monotone_saturating 100 300 (by norm_num) (by norm_num)).2.1
     (by norm_num) (by norm_num)⟩

/-- For every rational fill level exactly one of the five status-message
    conditions holds, so exactly one message renders. -/
theorem statusMessages_length_one (f : ℚ) : (statusMessages f).length = 1 := by
  unfold statusMessages
  rcases lt_or_le f 0.25 with h1 | h1
  · rw [if_pos h1, if_neg (by rintro ⟨h2, h3⟩; linarith),
      if_neg (by rintro ⟨h2, h3⟩; linarith), if_neg (by rintro ⟨h2, h3⟩; linarith),
      if_neg (by intro h5; linarith)]
    rfl
  rcases lt_or_le f 0.5 with h2 | h2
  · rw [if_neg (not_lt.2 h1), if_pos ⟨h1, h2⟩, if_neg (by rintro ⟨h3, h4⟩; linarith),
      if_neg (by rintro ⟨h3, h4⟩; linarith), if_neg (by intro h5; linarith)]
    rfl
  rcases lt_or_le f 0.75 with h3 | h3
  · rw [if_neg (by intro h0; linarith), if_neg (by rintro ⟨ha, hb⟩; linarith),
      if_pos ⟨h2, h3⟩, if_neg (by rintro ⟨ha, hb⟩; linarith),
      if_neg (by intro h5; linarith)]
    rfl
  rcases lt_or_le f 1 with h4 | h4
  · rw [if_neg (by intro h0; linarith), if_neg (by rintro ⟨ha, hb⟩; linarith),
      if_neg (by rintro ⟨ha, hb⟩; linarith), if_pos ⟨h3, h4⟩,
      if_neg (by intro h5; linarith)]
    rfl
  · rw [if_neg (by intro h0; linarith), if_neg (by rintro ⟨ha, hb⟩; linarith),
      if_neg (by rintro ⟨ha, hb⟩; linarith), if_neg (by rintro ⟨ha, hb⟩; linarith),
      if_pos h4]
    rfl

/-- C4: for every non-negative pledge count, exactly one of the five status
    messages is rendered. -/
theorem exactly_one_status_message (c : ℤ) (_h : 0 ≤ c) :
    (statusMessages (fillLevel c)).length = 1 :=
  statusMessages_length_one (fillLevel c)

/-- Witness for C4 at count 42. -/
theorem exactly_one_status_message_witness :
    (statusMessages (fillLevel 42)).length = 1 :=
  exactly_one_status_message 42 (by norm_num)

/-- C2: the tier is a first-match step function of the fill level with
    closed-open breakpoints at 0.25, 0.5, 0.75 and 1: counts 0, 50, 100, 150,
    200 and 500 select the starting, growing, halfway, almost-full, complete
    and complete messages respectively (saturation at 500, no error). -/
theorem tier_at_breakpoint_counts :
    statusMessages (fillLevel 0) = [msgStarting] ∧
    statusMessages (fillLevel 50) = [msgGrowing] ∧
    statusMessages (fillLevel 100) = [msgHalfway] ∧
    statusMessages (fillLevel 150) = [msgAlmostFull] ∧
    statusMessages (fillLevel 200) = [msgComplete] ∧
    statusMessages (fillLevel 500) = [msgComplete] := by
  refine ⟨?_, ?_, ?_, ?_, ?_, ?_⟩ <;> norm_num [statusMessages, fillLevel, min_def]

/-- C5: the per-frame animator is a stateless pure function of the elapsed
    time `t`: its output does not depend on the previous transform, the scale
    it writes is `1 + sin(t * 0.5) * 0.1` and the Y rotation is
    `sin(t * 0.2) * 0.1`, and at `t = 0` the result is the identity transform
    (scale 1, rotation 0). -/
theorem animate_stateless_identity_at_zero :
    (∀ (t : ℝ) (tr1 tr2 : Transform), animate t tr1 = animate t tr2) ∧
    (∀ (t : ℝ) (tr : Transform),
      (animate t tr).scale = 1 + Real.sin (t * 0.5) * 0.1 ∧
      (animate t tr).rotY = Real.sin (t * 0.2) * 0.1) ∧
    (∀ tr : Transform, (animate 0 tr).scale = 1 ∧ (animate 0 tr).rotY = 0) := by
  refine ⟨fun t tr1 tr2 => rfl, fun t tr => ⟨rfl, rfl⟩, fun tr => ⟨?_, ?_⟩⟩ <;>
    simp [animate]

/-- C6: the material transform sets, on every surface of the asset,
    hue `120 + fillLevel*60`, lightness `40 + fillLevel*20`, opacity
    `0.8 + fillLevel*0.2`, and always marks the surface translucent. -/
theorem applyMaterials_formula (f : ℚ) (scene : List Material) (m : Material)
    (hm : m ∈ applyMaterials f scene) :
    m.hue = 120 + f * 60 ∧ m.saturation = 70 ∧ m.lightness = 40 + f * 20 ∧
    m.opacity = 0.8 + f * 0.2 ∧ m.transparent = true := by
  simp only [applyMaterials] at hm
  rcases List.mem_map.1 hm with ⟨m0, _, rfl⟩
  exact ⟨rfl, rfl, rfl, rfl, rfl⟩

/-- Witness for C6 at fill level 1/2 on a one-surface scene. -/
theorem applyMaterials_formula_witness :
    (updateMaterial (1/2) sampleMaterial).hue = 120 + (1/2 : ℚ) * 60 ∧
    (updateMaterial (1/2) sampleMaterial).saturation = 70 ∧
    (updateMaterial (1/2) sampleMaterial).lightness = 40 + (1/2 : ℚ) * 20 ∧
    (updateMaterial (1/2) sampleMaterial).opacity = 0.8 + (1/2 : ℚ) * 0.2 ∧
    (updateMaterial (1/2) sampleMaterial).transparent = true :=
  applyMaterials_formula (1/2) [sampleMaterial] (updateMaterial (1/2) sampleMaterial)
    (by simp [applyMaterials])

/-- C7: for a fill level in [0, 1] and any random stream with values in
    [0, 1), the scene contains exactly `⌊fillLevel * 50⌋` 3D markers, every
    marker position lies in the box x ∈ [-1,1], y ∈ [-0.75,0.75],
    z ∈ [-0.25,0.25], the marker count does not depend on the random stream,
    count 0 yields 0 markers and count 200 yields exactly 50. -/
theorem markers3D_count_and_bounds (f : ℚ) (r : ℕ → ℚ)
    (_hf0 : 0 ≤ f) (_hf1 : f ≤ 1) (hr : ∀ i, 0 ≤ r i ∧ r i < 1) :
    (markers3D f r).length = (⌊f * 50⌋).toNat ∧
    (∀ p ∈ markers3D f r,
      -1 ≤ p.1 ∧ p.1 ≤ 1 ∧ -0.75 ≤ p.2.1 ∧ p.2.1 ≤ 0.75 ∧
      -0.25 ≤ p.2.2 ∧ p.2.2 ≤ 0.25) ∧
    (∀ s : ℕ → ℚ, (markers3D f s).length = (markers3D f r).length) ∧
    (markers3D (fillLevel 0) r).length = 0 ∧
    (markers3D (fillLevel 200) r).length = 50 := by
  refine ⟨?_, ?_, ?_, ?_, ?_⟩
  · simp [markers3D, numMarkers3D, jsArrayLength]
  · intro p hp
    simp only [markers3D, List.mem_map, List.mem_range] at hp
    rcases hp with ⟨i, _, rfl⟩
    obtain ⟨hx0, hx1⟩ := hr (3 * i)
    obtain ⟨hy0, hy1⟩ := hr (3 * i + 1)
    obtain ⟨hz0, hz1⟩ := hr (3 * i + 2)
    simp only [markerPos3D]
    refine ⟨by linarith, by linarith, by linarith, by linarith, by linarith,
      by linarith⟩
  · intro s
    simp [markers3D]
  · simp only [markers3D, List.length_map, List.length_range, numMarkers3D,
      jsArrayLength]
    norm_num [fillLevel, min_def]
  · simp only [markers3D, List.length_map, List.length_range, numMarkers3D,
      jsArrayLength]
    norm_num [fillLevel, min_def]
    decide

/-- Witness for C7 at fill level 1 with the constant random stream 1/2. -/
theorem markers3D_count_and_bounds_witness :
    (markers3D 1 (fun _ => 1/2)).length = (⌊(1 : ℚ) * 50⌋).toNat :=
  (markers3D_count_and_bounds 1 (fun _ => 1/2) (by norm_num) (by norm_num)
    (fun _ => by norm_num)).1

/-- C8: for a fill level in [0, 1], the overlay renders exactly
    `⌊fillLevel * 10⌋` floating markers, the position of marker `i` is the
    deterministic linear function `(10 + i*8, 15 + i*6)` percent, count 0
    yields 0 markers and count 200 exactly 10. -/
theorem overlayMarkers_count_and_positions (f : ℚ) (_hf0 : 0 ≤ f) (_hf1 : f ≤ 1) :
    (overlayMarkers f).length = (⌊f * 10⌋).toNat ∧
    (∀ (i : ℕ) (h : i < (overlayMarkers f).length),
      (overlayMarkers f)[i] = (10 + (i : ℚ) * 8, 15 + (i : ℚ) * 6)) ∧
    (overlayMarkers (fillLevel 0)).length = 0 ∧
    (overlayMarkers (fillLevel 200)).length = 10 := by
  refine ⟨?_, ?_, ?_, ?_⟩
  · unfold overlayMarkers numOverlayMarkers jsArrayLength
    rw [List.length_map, List.length_range]
  · intro i h
    unfold overlayMarkers
    rw [List.getElem_map, List.getElem_range]
  · simp only [overlayMarkers, List.length_map, List.length_range,
      numOverlayMarkers, jsArrayLength]
    norm_num [fillLevel, min_def]
  · simp only [overlayMarkers, List.length_map, List.length_range,
      numOverlayMarkers, jsArrayLength]
    norm_num [fillLevel, min_def]
    decide

/-- Witness for C8 at fill level 1. -/
theorem overlayMarkers_count_and_positions_witness :
    (overlayMarkers 1).length = (⌊(1 : ℚ) * 10⌋).toNat :=
  (overlayMarkers_count_and_positions 1 (by norm_num) (by norm_num)).1

/-- C10 counterexample: at pledge count -1 the displayed percentage is 0, not
    negative — `Math.round(-0.5) = 0` (JS rounds halves toward +∞) — so the
    claim that every negative count displays a negative percentage is false. -/
theorem negative_count_percentage_not_negative :
    (-1 : ℤ) < 0 ∧ fillPercentage (-1) = 0 ∧ ¬ fillPercentage (-1) < 0 := by
  norm_num [fillPercentage, jsRound, fillLevel, min_def]

/-- C10 amended: for every negative pledge count the fill level is
    `count/200 < 0` (no clamp at 0), the displayed percentage is non-positive
    — negative for counts ≤ -2, but 0 at count -1 — both particle systems
    render zero markers, and the starting status message is the one shown. -/
theorem negative_count_behavior (c : ℤ) (h : c < 0) :
    fillLevel c = (c : ℚ) / 200 ∧
    fillLevel c < 0 ∧
    fillPercentage c ≤ 0 ∧
    (c ≤ -2 → fillPercentage c < 0) ∧
    numMarkers3D (fillLevel c) = 0 ∧
    numOverlayMarkers (fillLevel c) = 0 ∧
    statusMessages (fillLevel c) = [msgStarting] := by
  have hc1 : (c : ℚ) ≤ -1 := by exact_mod_cast (by omega : c ≤ -1)
  have hneg : (c : ℚ) / 200 < 0 :=
    div_neg_of_neg_of_pos (by exact_mod_cast h) (by norm_num)
  have heq : fillLevel c = (c : ℚ) / 200 := min_eq_left (by linarith)
  have hflt : fillLevel c < 0 := by rw [heq]; exact hneg
  refine ⟨heq, hflt, ?_, ?_, ?_, ?_, ?_⟩
  · unfold fillPercentage jsRound
    exact Int.floor_nonpos (by rw [heq]; rw [div_mul_eq_mul_div]; linarith)
  · intro h2
    have hc2 : (c : ℚ) ≤ -2 := by exact_mod_cast h2
    unfold fillPercentage jsRound
    refine Int.floor_lt.2 ?_
    push_cast
    rw [heq, div_mul_eq_mul_div]
    linarith
  · unfold numMarkers3D jsArrayLength
    exact Int.toNat_of_nonpos (Int.floor_nonpos (by nlinarith [hflt]))
  · unfold numOverlayMarkers jsArrayLength
    exact Int.toNat_of_nonpos (Int.floor_nonpos (by nlinarith [hflt]))
  · unfold statusMessages
    rw [if_pos (by linarith : fillLevel c < 0.25),
      if_neg (by rintro ⟨h1, _⟩; linarith), if_neg (by rintro ⟨h1, _⟩; linarith),
      if_neg (by rintro ⟨h1, _⟩; linarith), if_neg (by intro h1; linarith)]
    rfl

/-- Witness for the amended C10 at count -50. -/
theorem negative_count_behavior_witness :
    fillLevel (-50) < 0 ∧ statusMessages (fillLevel (-50)) = [msgStarting] ∧
    fillPercentage (-50) < 0 :=
  ⟨(negative_count_behavior (-50) (by norm_num)).2.1,
   (negative_count_behavior (-50) (by norm_num)).2.2.2.2.2.2,
   (negative_count_behavior (-50) (by norm_num)).2.2.2.1 (by norm_num)⟩

end LungsModel3D
